import Mathlib

/-!
# Verification of the SWE-Agent sandbox and reward code

Shallow embedding of `recipe/swe_agent`:
* `swe_agent/reward/swe_reward.py` — patch normalization, changed-file
  extraction and reward scoring, modelled over Python strings as `List Char`;
* `swe_agent/sandbox/docker_sandbox.py` — the `DockerSandbox` lifecycle
  (`create`, `exec`, `cleanup`, `get_patch`), modelled as pure state
  transitions driven by an oracle describing the outcomes of the external
  `docker` invocations and filesystem calls.
-/

/-! ## Python string primitives (strings as `List Char`) -/

/-- A Python string, modelled as its list of characters. -/
abbrev PyStr := List Char

/-- The whitespace characters stripped by Python `str.strip` / `str.rstrip`
(ASCII subset, which is all that occurs in patches). -/
def pySpace (c : Char) : Bool :=
  c = ' ' || c = '\t' || c = '\n' || c = '\r' || c = '\x0b' || c = '\x0c'

/-- Python `str.lstrip()`. -/
def pyLstrip (l : PyStr) : PyStr := l.dropWhile pySpace

/-- Python `str.rstrip()`. -/
def pyRstrip (l : PyStr) : PyStr := (l.reverse.dropWhile pySpace).reverse

/-- Python `str.strip()`. -/
def pyStrip (l : PyStr) : PyStr := pyRstrip (pyLstrip l)

/-- Python `s.split("\n")`: splitting on a single newline separator.
Always returns at least one (possibly empty) piece. -/
def splitLines : PyStr → List PyStr
  | [] => [[]]
  | c :: rest =>
    match splitLines rest with
    | [] => [[c]]
    | h :: t => if c = '\n' then [] :: h :: t else (c :: h) :: t

/-- Python `"\n".join(lines)`. -/
def joinLines : List PyStr → PyStr
  | [] => []
  | [l] => l
  | l :: l' :: ls => l ++ '\n' :: joinLines (l' :: ls)

/-! ## `swe_reward.normalize_patch` -/

/-- Does a line start with `"index "` (a git index header line)? -/
def isIndexLine (l : PyStr) : Bool := ("index ".data).isPrefixOf l

/-- The filter applied by the explicit loop in `normalize_patch`:
skip `index ` lines and lines that are empty after `strip()`. -/
def keepLine (l : PyStr) : Bool := !(isIndexLine l) && !(pyStrip l).isEmpty

/-- `swe_reward.normalize_patch`: empty input maps to the empty string;
otherwise strip the patch, split into lines, right-strip each line, drop
empty lines, drop `index ` lines and whitespace-only lines, and re-join. -/
def normalize_patch (p : PyStr) : PyStr :=
  if p.isEmpty then []
  else
    joinLines
      ((((splitLines (pyStrip p)).map pyRstrip).filter
        (fun l => !l.isEmpty)).filter keepLine)

/-- Does a string avoid starting with whitespace?  (The first character is
the one `strip()` can still remove after one normalization pass.) -/
def headNotSpace : PyStr → Bool
  | [] => true
  | c :: _ => !pySpace c

/-! ## `swe_reward.extract_changed_files`

The Python code runs `re.findall(r"diff --git a/(.+?) b/(.+)", patch)` and
collects the second capture group of every match.  Since `.` does not match
a newline, matches never span lines, and since the greedy `(.+)` consumes to
the end of the line there is at most one match per line; `findall` over the
whole string is therefore the concatenation of the per-line matches.  The
functions below implement that per-line search, including the lazy semantics
of `(.+?)` (shortest non-empty first group such that the rest still matches)
and the leftmost-match rule for the start position. -/

/-- Scan the text after the non-empty first capture group for the literal
`" b/"` followed by a non-empty remainder; return that remainder (the second
capture group).  Advancing one character on failure realises the lazy growth
of `(.+?)`. -/
def scanBSplit : PyStr → Option PyStr
  | [] => none
  | d :: rest =>
    if (" b/".data).isPrefixOf (d :: rest) && !((d :: rest).drop 3).isEmpty
    then some ((d :: rest).drop 3)
    else scanBSplit rest

/-- Match `(.+?) b/(.+)` against the text following `"diff --git a/"`:
consume at least one character into the first group, then search for the
`" b/"` split. -/
def splitBPath : PyStr → Option PyStr
  | [] => none
  | _ :: rest => scanBSplit rest

/-- Search one line (guaranteed newline-free) for the pattern
`diff --git a/(.+?) b/(.+)`, returning the second capture group of the
leftmost match. -/
def matchDiffLine : PyStr → Option PyStr
  | [] => none
  | c :: rest =>
    if ("diff --git a/".data).isPrefixOf (c :: rest) then
      match splitBPath ((c :: rest).drop 13) with
      | some y => some y
      | none => matchDiffLine rest
    else matchDiffLine rest

/-- `swe_reward.extract_changed_files`: the `b/` path of every
`diff --git` header found in the patch, in order. -/
def extract_changed_files (p : PyStr) : List PyStr :=
  if p.isEmpty then []
  else (splitLines p).filterMap matchDiffLine

/-! ## `swe_reward.compare_patches_simple` and `compute_swe_agent_reward` -/

/-- Python truthiness of an `Optional[str]`: `None` and `""` are falsy. -/
def pyTruthy : Option PyStr → Bool
  | none => false
  | some l => !l.isEmpty

/-- The Python set of changed files of a patch (`set(extract_changed_files(p))`). -/
def changedFileSet (p : PyStr) : Finset PyStr := (extract_changed_files p).toFinset

/-- The local `file_overlap` of `compare_patches_simple`:
`len(gen_files & exp_files) / len(exp_files)`. -/
def fileOverlap (generated expected : PyStr) : ℚ :=
  ((changedFileSet generated ∩ changedFileSet expected).card : ℚ) /
    ((changedFileSet expected).card : ℚ)

/-- `swe_reward.compare_patches_simple`, scores as exact rationals.
`generated` is the `Optional[str]` actually passed by
`compute_swe_agent_reward`; `if not generated` covers both `None` and `""`. -/
def compare_patches_simple (generatedO : Option PyStr) (expected : PyStr) : ℚ :=
  match generatedO with
  | none => 0
  | some generated =>
    if generated.isEmpty then 0
    else if normalize_patch generated = normalize_patch expected then 1
    else if changedFileSet expected = ∅ then
      (if changedFileSet generated = ∅ then 0 else 1/10)
    else if fileOverlap generated expected = 1 then 1/2
    else if 0 < fileOverlap generated expected then
      2/10 + 3/10 * fileOverlap generated expected
    else 1/10

/-- The reward-model configuration dictionary: the three keys
`compute_swe_agent_reward` reads, each possibly absent. -/
structure RewardModelConfig where
  style : Option PyStr
  ground_truth : Option PyStr
  gold_patch : Option PyStr

/-- `swe_reward.compute_swe_agent_reward`: dispatch on the `style`
discriminator (default `"swe_agent"`), falling back to the simple
comparison in every branch. -/
def compute_swe_agent_reward (generated : Option PyStr)
    (cfg : RewardModelConfig) : ℚ :=
  let style := cfg.style.getD ("swe_agent".data)
  if style = "swe_agent".data then
    compare_patches_simple generated (cfg.ground_truth.getD [])
  else if style = "swe_bench".data then
    if pyTruthy generated = false then 0
    else compare_patches_simple generated (cfg.gold_patch.getD [])
  else
    compare_patches_simple generated (cfg.ground_truth.getD [])

/-! ## `docker_sandbox.DockerSandboxConfig` -/

/-- `DockerSandboxConfig`, with the source's default field values. -/
structure DockerSandboxConfig where
  image : String := "verl-swe-agent:latest"
  memory_limit : String := "8g"
  cpu_count : Int := 4
  startup_timeout : Int := 60
  execution_timeout : Int := 1800
  network_mode : String := "host"
  work_dir : String := "/workspace"
  model_proxy_host : String := "127.0.0.1"
  model_proxy_port : Int := 8080
  env_vars : List (String × String) := []

/-! ## Sandbox state and external-world oracle

`DockerSandbox` methods shell out to `docker` and to the filesystem.  The
embedding keeps the object's mutable attributes in `SandboxState`, the
observable filesystem effects in `Workspace`, and describes the outcome of
each external call by an oracle value supplied to the transition function. -/

/-- The mutable attributes of a `DockerSandbox` instance
(`container_id`, `container_name`, `_temp_dir`, `_docker_available`). -/
structure SandboxState where
  container_id : Option String
  container_name : Option String
  temp_dir : Option String
  docker_available_cache : Option Bool
deriving DecidableEq

/-- The state set up by `__init__`. -/
def initialSandboxState : SandboxState := ⟨none, none, none, none⟩

/-- Python truthiness of an `Optional[str]` attribute
(`if not self.container_id`, `if self._temp_dir`). -/
def truthyStr : Option String → Bool
  | none => false
  | some s => !s.isEmpty

/-- The observable content of the temporary workspace directory:
whether the directory still exists on disk, the files written into it,
and the git history created by `_init_repo` (`git init` ran;
number of commits). -/
structure Workspace where
  dirExists : Bool
  files : List (String × String)
  gitInitialized : Bool
  commits : Nat
deriving DecidableEq

/-- The outcome of the detached `docker run` invocation in
`_create_container`. -/
inductive StartOutcome
  | started (cid : String)
  | failed (stderr : String)
  | timedOut
deriving DecidableEq

/-- Oracle for the external calls made during `create`: the result of the
`docker version` probe, of `docker image inspect`, of the on-demand image
build, the path returned by `tempfile.mkdtemp`, the random suffix used for
the container name, and the outcome of `docker run`. -/
structure DockerEnv where
  dockerAvailable : Bool
  imageExists : Bool
  dockerfileExists : Bool
  buildSucceeds : Bool
  tempDirPath : String
  nameSuffix : String
  startOutcome : StartOutcome
deriving DecidableEq

/-- The errors `create` can raise (`RuntimeError` values in the source). -/
inductive CreateError
  | runtimeUnavailable (msg : String)
  | dockerfileMissing
  | imageBuildFailed
  | creationFailed
  | creationTimeout
deriving DecidableEq

/-- The remediation text raised by `_ensure_docker_available`. -/
def dockerUnavailableMsg : String :=
  "Docker is not available. Please ensure:\n" ++
  "1. Docker is installed (run: docker --version)\n" ++
  "2. Docker daemon is running (run: docker ps)\n" ++
  "3. If running in container, mount Docker socket:\n" ++
  "   -v /var/run/docker.sock:/var/run/docker.sock\n" ++
  "4. Docker binary is accessible:\n" ++
  "   -v /usr/bin/docker:/usr/bin/docker"

/-! ## Workspace seeding (`_init_repo`) -/

/-- Writing one file into the workspace directory: an existing file with
the same path is overwritten, otherwise the file is added. -/
def writeFile (fs : List (String × String)) (kv : String × String) :
    List (String × String) :=
  if fs.any (fun e => e.1 = kv.1)
  then fs.map (fun e => if e.1 = kv.1 then kv else e)
  else fs ++ [kv]

/-- `_init_repo`: write every file of the mapping, then
`git init`, `git add -A`, `git commit`.  The commit succeeds exactly when
something was staged (git refuses an empty initial commit; `_exec_local`
swallows the failure), so the history gains one commit iff the directory
is non-empty afterwards. -/
def initRepo (repo : List (String × String)) (w : Workspace) : Workspace :=
  let files := repo.foldl writeFile w.files
  { w with
    files := files
    gitInitialized := true
    commits := w.commits + (if files.isEmpty then 0 else 1) }

/-- The workspace right after `tempfile.mkdtemp`: an existing empty
directory with no git history. -/
def mkWorkspace : Workspace := ⟨true, [], false, 0⟩

/-! ## `DockerSandbox.create` -/

/-- `create`: check docker availability (with the `_docker_available`
cache), ensure the image (with on-demand build), allocate the temp
workspace, seed it via `_init_repo` only when `repo_content` is truthy
(non-empty), then start the container.  The wait on container start is
`asyncio.wait_for(..., timeout=cfg.startup_timeout)`: with a non-positive
timeout it raises `TimeoutError` deterministically (the `communicate()`
task was just created and cannot already be done), so `create` raises the
creation-timeout error regardless of the runtime's answer; with a positive
timeout the outcome is the oracle's `startOutcome`.  Returns the raised
error or the container id, the resulting object state, and the workspace
directory (`none` when `mkdtemp` was never reached). -/
def create (cfg : DockerSandboxConfig) (repo : List (String × String))
    (env : DockerEnv) (s : SandboxState) :
    Except CreateError String × SandboxState × Option Workspace :=
  let avail := s.docker_available_cache.getD env.dockerAvailable
  let s1 := { s with docker_available_cache := some avail }
  if avail = false then
    (Except.error (CreateError.runtimeUnavailable dockerUnavailableMsg), s1, none)
  else if env.imageExists = false && env.dockerfileExists = false then
    (Except.error CreateError.dockerfileMissing, s1, none)
  else if env.imageExists = false && env.buildSucceeds = false then
    (Except.error CreateError.imageBuildFailed, s1, none)
  else
    let s2 := { s1 with temp_dir := some env.tempDirPath }
    let w1 := if repo.isEmpty then mkWorkspace else initRepo repo mkWorkspace
    let s3 := { s2 with container_name := some ("swe-agent-" ++ env.nameSuffix) }
    if cfg.startup_timeout ≤ 0 then
      (Except.error CreateError.creationTimeout, s3, some w1)
    else
      match env.startOutcome with
      | StartOutcome.started cid =>
        (Except.ok cid, { s3 with container_id := some cid }, some w1)
      | StartOutcome.failed _ =>
        (Except.error CreateError.creationFailed, s3, some w1)
      | StartOutcome.timedOut =>
        (Except.error CreateError.creationTimeout, s3, some w1)

/-! ## `_buildDockerRunArgs` -/

/-- Python `{**base, **upd}`: keys of `base` in order (values overridden by
`upd` where present), followed by the keys of `upd` not in `base`. -/
def dictMerge (base upd : List (String × String)) :
    List (String × String) :=
  base.map (fun kv => (kv.1, ((upd.lookup kv.1).getD kv.2))) ++
    upd.filter (fun kv => base.lookup kv.1 = none)

/-- The environment-variable mapping injected into the container:
the model-endpoint base URL and API key, merged with the configured
extra variables. -/
def containerEnvVars (cfg : DockerSandboxConfig) : List (String × String) :=
  dictMerge
    [("OPENAI_API_BASE",
      "http://" ++ cfg.model_proxy_host ++ ":" ++
        toString cfg.model_proxy_port ++ "/v1"),
     ("OPENAI_API_KEY", "verl-swe-agent")]
    cfg.env_vars

/-- `_buildDockerRunArgs`: the argument vector of the detached
`docker run` invocation. -/
def buildDockerRunArgs (cfg : DockerSandboxConfig)
    (tempDir containerName : String) : List String :=
  ["docker", "run", "-d",
   "--name", containerName,
   "--network", cfg.network_mode,
   "-m", cfg.memory_limit,
   "--cpus=" ++ toString cfg.cpu_count,
   "-v", tempDir ++ ":" ++ cfg.work_dir,
   "-w", cfg.work_dir] ++
  (containerEnvVars cfg).flatMap (fun kv => ["-e", kv.1 ++ "=" ++ kv.2]) ++
  [cfg.image, "sleep", "infinity"]

/-! ## `DockerSandbox.exec` -/

/-- The outcome of the `docker exec` subprocess: either it finished within
the wait bound with a return code and captured output, or the bounded wait
expired. -/
inductive ExecOutcome
  | completed (returncode : Int) (out err : String)
  | timedOut
deriving DecidableEq

/-- `timeout = timeout or self.config.execution_timeout`: `None` and the
falsy `0` fall back to the configured execution timeout. -/
def effectiveTimeout (cfg : DockerSandboxConfig) (t : Option Int) : Int :=
  match t with
  | none => cfg.execution_timeout
  | some v => if v = 0 then cfg.execution_timeout else v

/-- The stderr component returned by `exec` on timeout. -/
def timeoutStderr (t : Int) : String :=
  "Command timed out after " ++ toString t ++ "s"

/-- The message passed to `logger.error` on timeout, containing the
command truncated to its first 100 characters. -/
def timeoutLog (t : Int) (cmd : String) : String :=
  "Command timed out after " ++ toString t ++ "s: " ++
    String.mk (cmd.data.take 100) ++ "..."

/-- `exec`: raises `RuntimeError("Container not created")` when the
container id is falsy; otherwise returns the completed subprocess result,
or on timeout the sentinel triple `(-1, "", message)` together with the
logged diagnostic (second component: the emitted log line, if any). -/
def execCmd (cfg : DockerSandboxConfig) (s : SandboxState) (cmd : String)
    (t : Option Int) (oc : ExecOutcome) :
    Except String (Int × String × String) × Option String :=
  if truthyStr s.container_id = false then
    (Except.error "Container not created", none)
  else
    let eff := effectiveTimeout cfg t
    match oc with
    | ExecOutcome.completed rc out err => (Except.ok (rc, out, err), none)
    | ExecOutcome.timedOut =>
      (Except.ok (-1, "", timeoutStderr eff), some (timeoutLog eff cmd))

/-! ## `DockerSandbox.cleanup` -/

/-- Oracle for the fallible external calls in `cleanup`: whether
`docker stop`/`docker rm` raise (timeout or missing binary), and whether
`shutil.rmtree` raises. -/
structure CleanupOracle where
  stopRaises : Bool
  rmRaises : Bool
  rmtreeRaises : Bool
deriving DecidableEq

/-- The external actions `cleanup` attempts. -/
inductive CleanupStep
  | stopContainer
  | removeContainer
  | removeWorkspace
deriving DecidableEq

/-- `cleanup`: when the container id is truthy, try `docker stop` then
`docker rm -f` inside one `try` (an exception in `stop` skips `rm`), with a
`finally` clearing `container_id`; when `_temp_dir` is truthy and the
directory exists, try `shutil.rmtree` with a `finally` clearing `_temp_dir`.
Every exception is swallowed.  Returns the new object state, the new
workspace, and the list of steps that were attempted. -/
def cleanup (s : SandboxState) (w : Workspace) (o : CleanupOracle) :
    SandboxState × Workspace × List CleanupStep :=
  let s1 := if truthyStr s.container_id
            then { s with container_id := none } else s
  let t1 : List CleanupStep :=
    if truthyStr s.container_id then
      if o.stopRaises then [CleanupStep.stopContainer]
      else [CleanupStep.stopContainer, CleanupStep.removeContainer]
    else []
  if truthyStr s1.temp_dir && w.dirExists then
    if o.rmtreeRaises then
      ({ s1 with temp_dir := none }, w, t1 ++ [CleanupStep.removeWorkspace])
    else
      ({ s1 with temp_dir := none }, { w with dirExists := false },
        t1 ++ [CleanupStep.removeWorkspace])
  else (s1, w, t1)

/-! ## `DockerSandbox.get_patch` and the artifact extractor -/

/-- The git-diff fallback strategy of the extractor: a non-empty difference
against the baseline commit of a workspace that has a version-control
history, else nothing. -/
def diffFallback (hasGitHistory : Bool) (diff : String) : Option String :=
  if hasGitHistory && !diff.isEmpty then some diff else none

/-- Modelled from the spec: `PatchExtractor.extract` (module
`verl.recipe.swe_agent.utils.patch_extractor`) is imported by
`DockerSandbox.get_patch` but its source is not part of this tree.  Per the
spec (§4.4), it tries ordered strategies with first success winning: a
declared-artifact file in the output directory, returned verbatim when
present and non-empty; else the version-control difference against the
baseline commit, when a workspace with a history was supplied and the
difference is non-empty; else the absence signal `None`.  `artifact` is the
content of the declared-artifact file when one exists. -/
def extractorExtract (artifact : Option String) (hasGitHistory : Bool)
    (diff : String) : Option String :=
  match artifact with
  | some c => if !c.isEmpty then some c else diffFallback hasGitHistory diff
  | none => diffFallback hasGitHistory diff

/-- `DockerSandbox.get_patch`: `None` when no temp dir was allocated,
otherwise delegate to the extractor. -/
def get_patch (s : SandboxState) (artifact : Option String)
    (hasGitHistory : Bool) (diff : String) : Option String :=
  if truthyStr s.temp_dir = false then none
  else extractorExtract artifact hasGitHistory diff

/-! ## Helper lemmas -/

/-- Folding `writeFile` over fresh paths appends the mapping. -/
theorem foldl_writeFile_eq_append (repo : List (String × String)) :
    ∀ acc : List (String × String), (repo.map Prod.fst).Nodup →
      (∀ kv ∈ repo, ∀ e ∈ acc, e.1 ≠ kv.1) →
      repo.foldl writeFile acc = acc ++ repo := by
  induction repo with
  | nil => intro acc _ _; simp
  | cons kv rest ih =>
    intro acc hn hd
    have hany : acc.any (fun e => e.1 = kv.1) = false := by
      simp only [List.any_eq_false, decide_eq_true_eq]
      intro e he
      exact hd kv (List.mem_cons_self kv rest) e he
    have hw : writeFile acc kv = acc ++ [kv] := by
      simp [writeFile, hany]
    have hn0 : (kv.1 :: rest.map Prod.fst).Nodup := by
      rw [List.map_cons] at hn; exact hn
    have hn' : (rest.map Prod.fst).Nodup := (List.nodup_cons.mp hn0).2
    have hfst : kv.1 ∉ rest.map Prod.fst := (List.nodup_cons.mp hn0).1
    have hd' : ∀ kv' ∈ rest, ∀ e ∈ acc ++ [kv], e.1 ≠ kv'.1 := by
      intro kv' hkv' e he
      rcases List.mem_append.mp he with h | h
      · exact hd kv' (List.mem_cons_of_mem _ hkv') e h
      · have : e = kv := by simpa using h
        subst this
        intro hcontra
        exact hfst (by
          rw [hcontra]
          exact List.mem_map_of_mem Prod.fst hkv')
    calc (kv :: rest).foldl writeFile acc
        = rest.foldl writeFile (writeFile acc kv) := rfl
      _ = rest.foldl writeFile (acc ++ [kv]) := by rw [hw]
      _ = (acc ++ [kv]) ++ rest := ih (acc ++ [kv]) hn' hd'
      _ = acc ++ kv :: rest := by simp

/-- With nodup paths, `_init_repo` on a fresh workspace yields exactly the
mapping's files, a git history, and one commit when the mapping is
non-empty. -/
theorem initRepo_mkWorkspace (repo : List (String × String))
    (hne : repo ≠ []) (hn : (repo.map Prod.fst).Nodup) :
    initRepo repo mkWorkspace = ⟨true, repo, true, 1⟩ := by
  have hfold : repo.foldl writeFile [] = repo := by
    simpa using foldl_writeFile_eq_append repo [] hn (by simp)
  simp [initRepo, mkWorkspace, hfold, hne]

/-! ## Claims -/

/-- C1: for a non-empty repository-content mapping, a successful `create`
leaves a workspace holding exactly the mapping's files with matching
content, with a version-control history containing at least one (baseline)
commit, and returns the container id. -/
theorem create_seeds_workspace_exactly (cfg : DockerSandboxConfig)
    (repo : List (String × String)) (env : DockerEnv) (s : SandboxState)
    (cid : String)
    (h1 : repo ≠ []) (h2 : (repo.map Prod.fst).Nodup)
    (h3 : s.docker_available_cache = none)
    (h4 : env.dockerAvailable = true) (h5 : env.imageExists = true)
    (h6 : env.startOutcome = StartOutcome.started cid)
    (h7 : 0 < cfg.startup_timeout) :
    (create cfg repo env s).1 = Except.ok cid ∧
    ∃ w, (create cfg repo env s).2.2 = some w ∧
      w.files = repo ∧ w.gitInitialized = true ∧ 1 ≤ w.commits := by
  have hrepo : repo.isEmpty = false := by
    cases repo with
    | nil => exact absurd rfl h1
    | cons a l => rfl
  have h7' : ¬ cfg.startup_timeout ≤ 0 := not_le.mpr h7
  rw [create]
  rw [h3, h4, h5, h6]
  refine ⟨by simp [h7'], ⟨⟨true, repo, true, 1⟩, ?_, rfl, rfl, le_refl 1⟩⟩
  simp [hrepo, h7', initRepo_mkWorkspace repo h1 h2]

/-- C1 witness. -/
theorem create_seeds_workspace_exactly_witness :
    (create {} [("a.py", "x=1")]
        ⟨true, true, true, true, "/tmp/swe_agent_w1", "aa11", StartOutcome.started "cid-w1"⟩
        initialSandboxState).1 = Except.ok "cid-w1" ∧
    ∃ w, (create {} [("a.py", "x=1")]
        ⟨true, true, true, true, "/tmp/swe_agent_w1", "aa11", StartOutcome.started "cid-w1"⟩
        initialSandboxState).2.2 = some w ∧
      w.files = [("a.py", "x=1")] ∧ w.gitInitialized = true ∧ 1 ≤ w.commits :=
  create_seeds_workspace_exactly {} [("a.py", "x=1")] _ initialSandboxState
    "cid-w1" (by simp) (by simp) rfl rfl rfl rfl (by decide)

/-- C3: with the runtime unreachable, `create` raises the
runtime-unavailable error carrying the remediation text, before any
workspace mutation: no temp directory is recorded and no workspace is
allocated. -/
theorem create_runtime_unavailable_no_mutation (cfg : DockerSandboxConfig)
    (repo : List (String × String)) (env : DockerEnv)
    (h : env.dockerAvailable = false) :
    (create cfg repo env initialSandboxState).1 =
      Except.error (CreateError.runtimeUnavailable dockerUnavailableMsg) ∧
    (create cfg repo env initialSandboxState).2.1.temp_dir = none ∧
    (create cfg repo env initialSandboxState).2.2 = none := by
  rw [create]
  simp [initialSandboxState, h]

/-- C3 witness. -/
theorem create_runtime_unavailable_no_mutation_witness :
    (create {} [("a.py", "x=1")]
        ⟨false, true, true, true, "/tmp/swe_agent_w3", "cc33", StartOutcome.started "cid-w3"⟩
        initialSandboxState).1 =
      Except.error (CreateError.runtimeUnavailable dockerUnavailableMsg) ∧
    (create {} [("a.py", "x=1")]
        ⟨false, true, true, true, "/tmp/swe_agent_w3", "cc33", StartOutcome.started "cid-w3"⟩
        initialSandboxState).2.1.temp_dir = none ∧
    (create {} [("a.py", "x=1")]
        ⟨false, true, true, true, "/tmp/swe_agent_w3", "cc33", StartOutcome.started "cid-w3"⟩
        initialSandboxState).2.2 = none :=
  create_runtime_unavailable_no_mutation {} [("a.py", "x=1")] _ rfl

/-- C6: after `cleanup` — whatever the outcome of its internal steps — the
container identity is cleared, so every later `exec` against the sandbox
fails fast with the handle-invalid error instead of running the command. -/
theorem exec_after_cleanup_fails_fast (s : SandboxState) (w : Workspace)
    (o : CleanupOracle) (cfg : DockerSandboxConfig) (cmd : String)
    (t : Option Int) (oc : ExecOutcome) :
    execCmd cfg (cleanup s w o).1 cmd t oc =
      (Except.error "Container not created", none) := by
  have hc : truthyStr (cleanup s w o).1.container_id = false := by
    rw [cleanup]
    by_cases h : truthyStr s.container_id = true
    · simp only [h, if_true]
      split
      · split <;> simp [truthyStr]
      · simp [truthyStr]
    · have h' : truthyStr s.container_id = false := by
        cases hb : truthyStr s.container_id
        · rfl
        · exact absurd hb h
      simp only [h', if_false, Bool.false_eq_true]
      split
      · split <;> simpa [truthyStr] using h'
      · exact h'
  rw [execCmd, hc]
  simp

/-- C5: artifact extraction prefers the declared-artifact file — with both
a non-empty artifact file and a non-empty baseline diff present, the result
is the file content verbatim, not the diff — and returns the absence
signal `none` (not an error) when neither strategy yields content. -/
theorem get_patch_prefers_artifact_file (s : SandboxState) (c d : String)
    (hg : Bool)
    (h1 : truthyStr s.temp_dir = true)
    (h2 : c.isEmpty = false) (h3 : d.isEmpty = false) :
    get_patch s (some c) true d = some c ∧
    get_patch s none hg "" = none ∧
    get_patch s none false d = none ∧
    get_patch s (some "") hg "" = none ∧
    get_patch s (some "") false d = none := by
  have hempty : "".isEmpty = true := rfl
  refine ⟨?_, ?_, ?_, ?_, ?_⟩ <;>
    cases hg <;>
      simp [get_patch, extractorExtract, diffFallback, h1, h2, h3, hempty]

/-- C5 witness. -/
theorem get_patch_prefers_artifact_file_witness :
    get_patch ⟨some "cid", some "n", some "/tmp/swe_agent_w5", some true⟩
        (some "artifact-content") true "diff-content" = some "artifact-content" ∧
    get_patch ⟨some "cid", some "n", some "/tmp/swe_agent_w5", some true⟩
        none true "" = none ∧
    get_patch ⟨some "cid", some "n", some "/tmp/swe_agent_w5", some true⟩
        none false "diff-content" = none ∧
    get_patch ⟨some "cid", some "n", some "/tmp/swe_agent_w5", some true⟩
        (some "") true "" = none ∧
    get_patch ⟨some "cid", some "n", some "/tmp/swe_agent_w5", some true⟩
        (some "") false "diff-content" = none :=
  get_patch_prefers_artifact_file _ "artifact-content" "diff-content" true
    rfl rfl rfl

/-- C7 counterexample: `create` with the empty mapping succeeds, yet the
workspace has no version-control history at all — `_init_repo` is guarded
by `if repo_content:` and is skipped entirely, so there is no baseline
commit (the claim asserts at least one commit for every mapping). -/
theorem create_empty_mapping_cex :
    (create {} []
        ⟨true, true, true, true, "/tmp/swe_agent_c7", "c777", StartOutcome.started "cid-c7"⟩
        initialSandboxState).1 = Except.ok "cid-c7" ∧
    (create {} []
        ⟨true, true, true, true, "/tmp/swe_agent_c7", "c777", StartOutcome.started "cid-c7"⟩
        initialSandboxState).2.2 = some mkWorkspace ∧
    mkWorkspace.gitInitialized = false ∧ ¬ 1 ≤ mkWorkspace.commits :=
  ⟨rfl, rfl, rfl, by decide⟩

/-- C7 amended: `create` seeds the workspace via `_init_repo` only for a
non-empty mapping; with the empty mapping it performs no version-control
init at all, leaving an existing but empty workspace directory with no git
history and zero commits (while still succeeding). -/
theorem create_empty_mapping_no_git (cfg : DockerSandboxConfig)
    (env : DockerEnv) (s : SandboxState) (cid : String)
    (h3 : s.docker_available_cache = none)
    (h4 : env.dockerAvailable = true) (h5 : env.imageExists = true)
    (h6 : env.startOutcome = StartOutcome.started cid)
    (h7 : 0 < cfg.startup_timeout) :
    (create cfg [] env s).1 = Except.ok cid ∧
    (create cfg [] env s).2.2 =
      some ⟨true, [], false, 0⟩ := by
  have h7' : ¬ cfg.startup_timeout ≤ 0 := not_le.mpr h7
  rw [create]
  rw [h3, h4, h5, h6]
  exact ⟨by simp [h7'], by simp [h7', mkWorkspace]⟩

/-- C7 amended witness. -/
theorem create_empty_mapping_no_git_witness :
    (create {} []
        ⟨true, true, true, true, "/tmp/swe_agent_w7", "w777", StartOutcome.started "cid-w7"⟩
        initialSandboxState).1 = Except.ok "cid-w7" ∧
    (create {} []
        ⟨true, true, true, true, "/tmp/swe_agent_w7", "w777", StartOutcome.started "cid-w7"⟩
        initialSandboxState).2.2 = some ⟨true, [], false, 0⟩ :=
  create_empty_mapping_no_git {} _ initialSandboxState "cid-w7" rfl rfl rfl rfl
    (by decide)

/-- C8 counterexample: `create` performs no validation of the limit
fields — with a negative CPU count and a negative execution timeout (the
startup timeout at its positive default) it still succeeds against a
cooperative runtime instead of failing fast with a diagnostic naming the
invalid limit. -/
theorem create_no_limit_check_cex :
    (create { cpu_count := -1, execution_timeout := -7 }
        [("a.py", "x=1")]
        ⟨true, true, true, true, "/tmp/swe_agent_c8", "c888", StartOutcome.started "cid-c8"⟩
        initialSandboxState).1 = Except.ok "cid-c8" :=
  rfl

/-- C8 amended: `create` never validates the limit fields.  Non-positive
memory-limit, CPU-count and execution-timeout values are accepted — with a
positive startup timeout and a cooperative runtime `create` succeeds — and
every limit value, of whatever sign, is passed through verbatim into the
`docker run` argument vector.  A non-positive startup timeout does make
`create` fail, but only because the bounded wait on container start
expires immediately: the error is the provisioning `CreationTimeout`, not
a fail-fast diagnostic identifying the invalid limit. -/
theorem create_no_limit_validation (cfg : DockerSandboxConfig)
    (repo : List (String × String)) (env : DockerEnv) (s : SandboxState)
    (cid : String) (tempDir containerName : String)
    (h3 : s.docker_available_cache = none)
    (h4 : env.dockerAvailable = true) (h5 : env.imageExists = true)
    (h6 : env.startOutcome = StartOutcome.started cid) :
    (0 < cfg.startup_timeout → (create cfg repo env s).1 = Except.ok cid) ∧
    (cfg.startup_timeout ≤ 0 →
      (create cfg repo env s).1 = Except.error CreateError.creationTimeout) ∧
    ("--cpus=" ++ toString cfg.cpu_count) ∈
      buildDockerRunArgs cfg tempDir containerName ∧
    cfg.memory_limit ∈ buildDockerRunArgs cfg tempDir containerName := by
  refine ⟨?_, ?_, ?_, ?_⟩
  · intro h7
    have h7' : ¬ cfg.startup_timeout ≤ 0 := not_le.mpr h7
    rw [create, h3, h4, h5, h6]
    simp [h7']
  · intro h7
    rw [create, h3, h4, h5]
    simp [h7]
  · simp [buildDockerRunArgs]
  · simp [buildDockerRunArgs]

/-- C8 amended witness: at `cpu_count = 0`, `execution_timeout = -7` and
the default (positive) startup timeout, `create` succeeds and the limits
appear verbatim in the argument vector; at `startup_timeout = -3` it
fails with the provisioning timeout error. -/
theorem create_no_limit_validation_witness :
    (create { cpu_count := 0, execution_timeout := -7 }
        [("a.py", "x=1")]
        ⟨true, true, true, true, "/tmp/swe_agent_w8", "w888", StartOutcome.started "cid-w8"⟩
        initialSandboxState).1 = Except.ok "cid-w8" ∧
    ("--cpus=" ++
        toString (DockerSandboxConfig.cpu_count
          { cpu_count := 0, execution_timeout := -7 })) ∈
      buildDockerRunArgs { cpu_count := 0, execution_timeout := -7 }
        "/tmp/swe_agent_w8" "swe-agent-w888" ∧
    (DockerSandboxConfig.memory_limit
        { cpu_count := 0, execution_timeout := -7 }) ∈
      buildDockerRunArgs { cpu_count := 0, execution_timeout := -7 }
        "/tmp/swe_agent_w8" "swe-agent-w888" ∧
    (create { startup_timeout := -3 }
        [("a.py", "x=1")]
        ⟨true, true, true, true, "/tmp/swe_agent_w8b", "w8b8", StartOutcome.started "cid-w8b"⟩
        initialSandboxState).1 = Except.error CreateError.creationTimeout :=
  ⟨(create_no_limit_validation { cpu_count := 0, execution_timeout := -7 }
      [("a.py", "x=1")]
      ⟨true, true, true, true, "/tmp/swe_agent_w8", "w888", StartOutcome.started "cid-w8"⟩
      initialSandboxState "cid-w8"
      "/tmp/swe_agent_w8" "swe-agent-w888" rfl rfl rfl rfl).1 (by decide),
   (create_no_limit_validation { cpu_count := 0, execution_timeout := -7 }
      [("a.py", "x=1")]
      ⟨true, true, true, true, "/tmp/swe_agent_w8", "w888", StartOutcome.started "cid-w8"⟩
      initialSandboxState "cid-w8"
      "/tmp/swe_agent_w8" "swe-agent-w888" rfl rfl rfl rfl).2.2.1,
   (create_no_limit_validation { cpu_count := 0, execution_timeout := -7 }
      [("a.py", "x=1")]
      ⟨true, true, true, true, "/tmp/swe_agent_w8", "w888", StartOutcome.started "cid-w8"⟩
      initialSandboxState "cid-w8"
      "/tmp/swe_agent_w8" "swe-agent-w888" rfl rfl rfl rfl).2.2.2,
   (create_no_limit_validation { startup_timeout := -3 }
      [("a.py", "x=1")]
      ⟨true, true, true, true, "/tmp/swe_agent_w8b", "w8b8", StartOutcome.started "cid-w8b"⟩
      initialSandboxState "cid-w8b"
      "/tmp/swe_agent_w8b" "swe-agent-w8b8" rfl rfl rfl rfl).2.1 (by decide)⟩

/-- C2 counterexample: in `cleanup`, `docker stop` and `docker rm -f` share
one `try` block, so when stopping the container raises, removing the
container is never attempted — contradicting the claim that each internal
step is attempted independently of the others' failures. -/
theorem cleanup_stop_failure_skips_rm_cex :
    CleanupStep.removeContainer ∉
      (cleanup ⟨some "abc123def", some "swe-agent-c2", none, some true⟩
          mkWorkspace ⟨true, false, false⟩).2.2 := by
  decide

/-- C2 amended: `cleanup` never raises (every step's failure is swallowed)
and a second call is a no-op — no steps run, nothing changes; the container
identity is always cleared; the workspace directory is removed when the
removal call succeeds; but a `docker stop` failure skips the
container-removal attempt (stop and rm share one guarded block), and a
failed directory removal leaves a residual directory that the (no-op)
second call does not retry. -/
theorem cleanup_best_effort_idempotent (s : SandboxState) (w : Workspace)
    (o o' : CleanupOracle) :
    cleanup (cleanup s w o).1 (cleanup s w o).2.1 o' =
      ((cleanup s w o).1, (cleanup s w o).2.1, []) ∧
    truthyStr (cleanup s w o).1.container_id = false ∧
    (truthyStr s.temp_dir = true → w.dirExists = true →
      o.rmtreeRaises = false → (cleanup s w o).2.1.dirExists = false) ∧
    (truthyStr s.temp_dir = true → w.dirExists = true →
      o.rmtreeRaises = true →
      (cleanup s w o).2.1.dirExists = true ∧
        (cleanup s w o).1.temp_dir = none) ∧
    (o.stopRaises = true →
      CleanupStep.removeContainer ∉ (cleanup s w o).2.2) := by
  by_cases h1 : truthyStr s.container_id = true <;>
    by_cases h2 : truthyStr s.temp_dir = true <;>
      by_cases h3 : w.dirExists = true <;>
        by_cases h4 : o.rmtreeRaises = true <;>
          by_cases h5 : o.stopRaises = true <;>
            simp_all [cleanup, truthyStr]

/-- C2 amended witness. -/
theorem cleanup_best_effort_idempotent_witness :
    cleanup
        (cleanup ⟨some "abc123def", some "swe-agent-w2", some "/tmp/swe_agent_w2", some true⟩
            ⟨true, [("a.py", "x=1")], true, 1⟩ ⟨false, false, false⟩).1
        (cleanup ⟨some "abc123def", some "swe-agent-w2", some "/tmp/swe_agent_w2", some true⟩
            ⟨true, [("a.py", "x=1")], true, 1⟩ ⟨false, false, false⟩).2.1
        ⟨false, false, false⟩ =
      ((cleanup ⟨some "abc123def", some "swe-agent-w2", some "/tmp/swe_agent_w2", some true⟩
            ⟨true, [("a.py", "x=1")], true, 1⟩ ⟨false, false, false⟩).1,
        (cleanup ⟨some "abc123def", some "swe-agent-w2", some "/tmp/swe_agent_w2", some true⟩
            ⟨true, [("a.py", "x=1")], true, 1⟩ ⟨false, false, false⟩).2.1, []) ∧
    (cleanup ⟨some "abc123def", some "swe-agent-w2", some "/tmp/swe_agent_w2", some true⟩
        ⟨true, [("a.py", "x=1")], true, 1⟩ ⟨false, false, false⟩).2.1.dirExists = false :=
  ⟨(cleanup_best_effort_idempotent
      ⟨some "abc123def", some "swe-agent-w2", some "/tmp/swe_agent_w2", some true⟩
      ⟨true, [("a.py", "x=1")], true, 1⟩ ⟨false, false, false⟩ ⟨false, false, false⟩).1,
   (cleanup_best_effort_idempotent
      ⟨some "abc123def", some "swe-agent-w2", some "/tmp/swe_agent_w2", some true⟩
      ⟨true, [("a.py", "x=1")], true, 1⟩ ⟨false, false, false⟩
      ⟨false, false, false⟩).2.2.1 rfl rfl rfl⟩

/-- C4 counterexample: on timeout `exec` does return the sentinel `-1`
with a message embedding the timeout bound, but the returned diagnostic
does not embed any view of the command — the truncated command appears
only in the logged message, so the claim's description of the returned
diagnostic fails. -/
theorem exec_timeout_message_lacks_command_cex :
    (execCmd {} ⟨some "cid-c4", some "n", some "/tmp/swe_agent_c4", some true⟩
        "sleep 999999" (some 5) ExecOutcome.timedOut).1 =
      Except.ok (-1, "", "Command timed out after 5s") ∧
    ¬ ("sleep 999999".data.take 100) <:+:
        ("Command timed out after 5s".data) :=
  ⟨rfl, by decide⟩

/-- C4 amended: for a command exceeding the effective timeout (the
argument, or the configured execution timeout when the argument is absent
or the falsy `0`), `exec` does not raise and returns the sentinel exit
code `-1` with empty stdout and a diagnostic stderr embedding the elapsed
bound; the truncated view of the command is embedded in the logged
diagnostic, not in the returned message. -/
theorem exec_timeout_sentinel (cfg : DockerSandboxConfig)
    (s : SandboxState) (cmd : String) (t : Option Int)
    (h : truthyStr s.container_id = true) :
    execCmd cfg s cmd t ExecOutcome.timedOut =
      (Except.ok (-1, "", timeoutStderr (effectiveTimeout cfg t)),
        some (timeoutLog (effectiveTimeout cfg t) cmd)) ∧
    (toString (effectiveTimeout cfg t) ++ "s").data <:+:
      (timeoutStderr (effectiveTimeout cfg t)).data ∧
    (cmd.data.take 100) <:+: (timeoutLog (effectiveTimeout cfg t) cmd).data := by
  refine ⟨?_, ?_, ?_⟩
  · rw [execCmd, h]
    simp
  · refine ⟨"Command timed out after ".data, [], ?_⟩
    simp [timeoutStderr, String.data_append]
  · refine ⟨("Command timed out after " ++ toString (effectiveTimeout cfg t) ++ "s: ").data,
      "...".data, ?_⟩
    simp [timeoutLog, String.data_append]

/-- C4 amended witness. -/
theorem exec_timeout_sentinel_witness :
    execCmd {} ⟨some "cid-w4", some "n", some "/tmp/swe_agent_w4", some true⟩
        "sleep 7" none ExecOutcome.timedOut =
      (Except.ok (-1, "", timeoutStderr (effectiveTimeout {} none)),
        some (timeoutLog (effectiveTimeout {} none) "sleep 7")) ∧
    (toString (effectiveTimeout {} none) ++ "s").data <:+:
      (timeoutStderr (effectiveTimeout {} none)).data ∧
    ("sleep 7".data.take 100) <:+:
      (timeoutLog (effectiveTimeout {} none) "sleep 7").data :=
  exec_timeout_sentinel {} _ "sleep 7" none rfl

/-- The file-overlap ratio lies in `[0, 1]` whenever the expected file set
is non-empty. -/
theorem fileOverlap_bounds (g e : PyStr) (h : changedFileSet e ≠ ∅) :
    0 ≤ fileOverlap g e ∧ fileOverlap g e ≤ 1 := by
  have hpos : (0 : ℚ) < ((changedFileSet e).card : ℚ) := by
    have : 0 < (changedFileSet e).card :=
      Finset.card_pos.mpr (Finset.nonempty_iff_ne_empty.mpr h)
    exact_mod_cast this
  have hle : ((changedFileSet g ∩ changedFileSet e).card : ℚ) ≤
      ((changedFileSet e).card : ℚ) := by
    exact_mod_cast Finset.card_le_card Finset.inter_subset_right
  constructor
  · exact div_nonneg (by positivity) (le_of_lt hpos)
  · exact (div_le_one hpos).mpr hle

/-- `compare_patches_simple` always scores within `[0, 1]`. -/
theorem compare_patches_simple_bounds (g : Option PyStr) (e : PyStr) :
    0 ≤ compare_patches_simple g e ∧ compare_patches_simple g e ≤ 1 := by
  cases g with
  | none => simp [compare_patches_simple]
  | some gen =>
    rw [compare_patches_simple]
    split_ifs with h1 h2 h3 h4 h5 h6 <;> try norm_num
    have hb := fileOverlap_bounds gen e h3
    constructor
    · linarith [hb.1, hb.2]
    · linarith [hb.1, hb.2]

/-- C9: for every generated patch (including `None` and the empty string)
and every reward configuration (any `style`, with or without reference or
gold patch), the reward lies in the closed interval `[0, 1]`. -/
theorem compute_swe_agent_reward_bounds (generated : Option PyStr)
    (cfg : RewardModelConfig) :
    0 ≤ compute_swe_agent_reward generated cfg ∧
      compute_swe_agent_reward generated cfg ≤ 1 := by
  rw [compute_swe_agent_reward]
  split_ifs <;>
    first
      | exact compare_patches_simple_bounds generated (cfg.ground_truth.getD [])
      | exact compare_patches_simple_bounds generated (cfg.gold_patch.getD [])
      | norm_num

/-! ## Idempotence analysis of `normalize_patch` (C10) -/

/-- `pyRstrip` is idempotent. -/
theorem pyRstrip_idem (l : PyStr) : pyRstrip (pyRstrip l) = pyRstrip l := by
  unfold pyRstrip
  rw [List.reverse_reverse, List.dropWhile_idempotent]

/-- Members of `pyRstrip l` are members of `l`. -/
theorem mem_of_mem_pyRstrip {x : Char} {l : PyStr} (h : x ∈ pyRstrip l) :
    x ∈ l := by
  unfold pyRstrip at h
  rw [List.mem_reverse] at h
  have := (List.dropWhile_sublist pySpace (l := l.reverse)).subset h
  rwa [List.mem_reverse] at this

/-- `splitLines` never returns the empty list of pieces. -/
theorem splitLines_ne_nil (l : PyStr) : splitLines l ≠ [] := by
  cases l with
  | nil => simp [splitLines]
  | cons c rest =>
    rw [splitLines]
    split
    · simp
    · split <;> simp

/-- No piece produced by `splitLines` contains a newline. -/
theorem mem_splitLines_no_newline (l : PyStr) :
    ∀ m ∈ splitLines l, '\n' ∉ m := by
  induction l with
  | nil => intro m hm; simp [splitLines] at hm; simp [hm]
  | cons c rest ih =>
    intro m hm
    rw [splitLines] at hm
    split at hm
    · next heq => exact absurd heq (splitLines_ne_nil rest)
    · next h' t heq =>
      by_cases hc : c = '\n'
      · rw [if_pos hc] at hm
        rcases List.mem_cons.mp hm with hm | hm
        · simp [hm]
        · exact ih m (heq ▸ hm)
      · rw [if_neg hc] at hm
        rcases List.mem_cons.mp hm with hm | hm
        · subst hm
          intro hmem
          rcases List.mem_cons.mp hmem with hx | hx
          · exact hc hx.symm
          · exact ih h' (heq ▸ List.mem_cons_self h' t) hx
        · exact ih m (heq ▸ List.mem_cons_of_mem h' hm)

/-- A newline-free string splits into exactly one piece. -/
theorem splitLines_no_newline (l : PyStr) (h : '\n' ∉ l) :
    splitLines l = [l] := by
  induction l with
  | nil => rfl
  | cons c rest ih =>
    have hc : ¬ c = '\n' := fun hx => h (hx ▸ List.mem_cons_self c rest)
    have hr : '\n' ∉ rest := fun hx => h (List.mem_cons_of_mem c hx)
    rw [splitLines, ih hr]
    simp [hc]

/-- Splitting after a newline-free head piece peels it off. -/
theorem splitLines_append_newline (l m : PyStr) (h : '\n' ∉ l) :
    splitLines (l ++ '\n' :: m) = l :: splitLines m := by
  induction l with
  | nil =>
    rw [List.nil_append, splitLines]
    cases hm : splitLines m with
    | nil => exact absurd hm (splitLines_ne_nil m)
    | cons h' t => simp
  | cons c rest ih =>
    have hc : ¬ c = '\n' := fun hx => h (hx ▸ List.mem_cons_self c rest)
    have hr : '\n' ∉ rest := fun hx => h (List.mem_cons_of_mem c hx)
    rw [List.cons_append, splitLines, ih hr]
    simp [hc]

/-- `joinLines` of nonempty pieces is nonempty. -/
theorem joinLines_ne_nil (L : List PyStr) (hne : L ≠ [])
    (hL : ∀ l ∈ L, l ≠ []) : joinLines L ≠ [] := by
  cases L with
  | nil => exact absurd rfl hne
  | cons l L' =>
    cases L' with
    | nil => exact hL l (List.mem_cons_self l [])
    | cons l' ls =>
      rw [joinLines]
      simp

/-- `splitLines` is a left inverse of `joinLines` on newline-free pieces. -/
theorem splitLines_joinLines (L : List PyStr) (hne : L ≠ [])
    (hL : ∀ l ∈ L, '\n' ∉ l) : splitLines (joinLines L) = L := by
  induction L with
  | nil => exact absurd rfl hne
  | cons l L' ih =>
    cases L' with
    | nil =>
      rw [joinLines]
      exact splitLines_no_newline l (hL l (List.mem_cons_self l []))
    | cons l' ls =>
      rw [joinLines,
        splitLines_append_newline l _ (hL l (List.mem_cons_self l _)),
        ih (by simp) (fun x hx => hL x (List.mem_cons_of_mem l hx))]

/-- `headNotSpace` only looks at the first piece of an append. -/
theorem headNotSpace_append (a b : PyStr) (ha : a ≠ []) :
    headNotSpace (a ++ b) = headNotSpace a := by
  cases a with
  | nil => exact absurd rfl ha
  | cons c r => rfl

/-- A string not starting with whitespace is `pyLstrip`-fixed. -/
theorem pyLstrip_of_headNotSpace (l : PyStr) (h : headNotSpace l = true) :
    pyLstrip l = l := by
  cases l with
  | nil => rfl
  | cons c r =>
    rw [headNotSpace] at h
    rw [pyLstrip, List.dropWhile_cons]
    simp only [Bool.not_eq_true'] at h
    simp [h]

/-- A nonempty `pyRstrip`-fixed string does not end with whitespace. -/
theorem headNotSpace_reverse_of_rstrip_fixed (l : PyStr)
    (h : pyRstrip l = l) (hne : l ≠ []) :
    headNotSpace l.reverse = true := by
  have h' : l.reverse.dropWhile pySpace = l.reverse := by
    have := congrArg List.reverse h
    rwa [pyRstrip, List.reverse_reverse] at this
  cases hrev : l.reverse with
  | nil => exact absurd (List.reverse_eq_nil_iff.mp hrev) hne
  | cons c r =>
    rw [hrev, List.dropWhile_cons] at h'
    by_cases hc : pySpace c = true
    · rw [if_pos hc] at h'
      have hlen := congrArg List.length h'
      have hle := (List.dropWhile_sublist pySpace (l := r)).length_le
      simp at hlen
      omega
    · rw [headNotSpace]
      simp only [Bool.not_eq_true']
      exact Bool.not_eq_true _ ▸ (by simpa using hc)

/-- A string not ending with whitespace is `pyRstrip`-fixed. -/
theorem pyRstrip_of_headNotSpace_reverse (l : PyStr)
    (h : headNotSpace l.reverse = true) : pyRstrip l = l := by
  cases hrev : l.reverse with
  | nil =>
    have : l = [] := List.reverse_eq_nil_iff.mp hrev
    simp [this, pyRstrip]
  | cons c r =>
    rw [hrev, headNotSpace] at h
    simp only [Bool.not_eq_true'] at h
    rw [pyRstrip, hrev, List.dropWhile_cons]
    rw [h]
    simp [← hrev]

/-- `joinLines` of nonempty `pyRstrip`-fixed pieces does not end with
whitespace. -/
theorem joinLines_reverse_headNotSpace (L : List PyStr) (hne : L ≠ [])
    (hL : ∀ l ∈ L, pyRstrip l = l ∧ l ≠ []) :
    headNotSpace (joinLines L).reverse = true := by
  induction L with
  | nil => exact absurd rfl hne
  | cons l L' ih =>
    cases L' with
    | nil =>
      rw [joinLines]
      have hl := hL l (List.mem_cons_self l [])
      exact headNotSpace_reverse_of_rstrip_fixed l hl.1 hl.2
    | cons l' ls =>
      rw [joinLines, List.reverse_append, List.reverse_cons]
      have hJ : joinLines (l' :: ls) ≠ [] :=
        joinLines_ne_nil (l' :: ls) (by simp)
          (fun x hx => (hL x (List.mem_cons_of_mem l hx)).2)
      have hJr : (joinLines (l' :: ls)).reverse ≠ [] := by
        simpa [List.reverse_eq_nil_iff] using hJ
      rw [List.append_assoc, headNotSpace_append _ _ hJr]
      exact ih (by simp) (fun x hx => hL x (List.mem_cons_of_mem l hx))

/-- The fixpoint lemma: `normalize_patch` leaves `joinLines L` unchanged
when every piece is nonempty, newline-free, `pyRstrip`-fixed and kept by
the filters, provided the joined string does not begin with whitespace. -/
theorem normalize_patch_joinLines_fixed (L : List PyStr) (hne : L ≠ [])
    (hL : ∀ l ∈ L, pyRstrip l = l ∧ l ≠ [] ∧ keepLine l = true ∧ '\n' ∉ l)
    (hhead : headNotSpace (joinLines L) = true) :
    normalize_patch (joinLines L) = joinLines L := by
  have hnonempty : ∀ l ∈ L, l ≠ [] := fun l hl => (hL l hl).2.1
  have hjoin_ne : joinLines L ≠ [] := joinLines_ne_nil L hne hnonempty
  have hstrip : pyStrip (joinLines L) = joinLines L := by
    rw [pyStrip, pyLstrip_of_headNotSpace _ hhead]
    exact pyRstrip_of_headNotSpace_reverse _
      (joinLines_reverse_headNotSpace L hne
        (fun l hl => ⟨(hL l hl).1, (hL l hl).2.1⟩))
  have hsplit : splitLines (joinLines L) = L :=
    splitLines_joinLines L hne (fun l hl => (hL l hl).2.2.2)
  have hmap : L.map pyRstrip = L := by
    have := List.map_congr_left (f := pyRstrip) (g := fun l => l)
      (fun l hl => (hL l hl).1)
    rw [this, List.map_id']
  have hfilter1 : L.filter (fun l => !l.isEmpty) = L :=
    List.filter_eq_self.mpr (fun l hl => by
      simpa [List.isEmpty_iff] using (hL l hl).2.1)
  have hfilter2 : L.filter keepLine = L :=
    List.filter_eq_self.mpr (fun l hl => (hL l hl).2.2.1)
  rw [normalize_patch]
  rw [if_neg (by simpa [List.isEmpty_iff] using hjoin_ne)]
  rw [hstrip, hsplit, hmap, hfilter1, hfilter2]

/-- C10 counterexample: `normalize_patch` is not idempotent.  On
`"index a\n  b"` the first pass drops the `index ` line and keeps `"  b"`
with its leading whitespace (the initial `strip()` saw the `i` of
`index`), while the second pass strips that whitespace, giving `"b"`. -/
theorem normalize_patch_not_idempotent_cex :
    normalize_patch (normalize_patch ("index a\n  b".data)) ≠
      normalize_patch ("index a\n  b".data) ∧
    normalize_patch ("index a\n  b".data) = "  b".data ∧
    normalize_patch (normalize_patch ("index a\n  b".data)) = "b".data := by
  refine ⟨by decide, by decide, by decide⟩

/-- C10 amended: `normalize_patch` is idempotent on every patch whose
normalized form does not begin with a whitespace character; in general a
second application can only further remove leading whitespace (and any
`index ` line it uncovers) at the start of the output. -/
theorem normalize_patch_idem_of_headNotSpace (p : PyStr)
    (h : headNotSpace (normalize_patch p) = true) :
    normalize_patch (normalize_patch p) = normalize_patch p := by
  by_cases hp : p.isEmpty = true
  · have hnp : normalize_patch p = [] := by rw [normalize_patch, if_pos hp]
    rw [hnp]
    rfl
  · have hnp : normalize_patch p =
        joinLines ((((splitLines (pyStrip p)).map pyRstrip).filter
          (fun l => !l.isEmpty)).filter keepLine) := by
      rw [normalize_patch, if_neg hp]
    rw [hnp] at h ⊢
    by_cases hL : (((splitLines (pyStrip p)).map pyRstrip).filter
        (fun l => !l.isEmpty)).filter keepLine = []
    · rw [hL]
      rfl
    · refine normalize_patch_joinLines_fixed _ hL ?_ h
      intro l hl
      have hl2 := List.mem_of_mem_filter hl
      have hlkeep : keepLine l = true := List.of_mem_filter hl
      have hlne : l ≠ [] := by
        have := List.of_mem_filter hl2
        simpa [List.isEmpty_iff] using this
      have hlmap : l ∈ (splitLines (pyStrip p)).map pyRstrip :=
        List.mem_of_mem_filter hl2
      rcases List.mem_map.mp hlmap with ⟨orig, horig, hor⟩
      refine ⟨?_, hlne, hlkeep, ?_⟩
      · rw [← hor, pyRstrip_idem]
      · intro hmem
        exact mem_splitLines_no_newline (pyStrip p) orig horig
          (mem_of_mem_pyRstrip (hor ▸ hmem))

/-- C10 amended witness. -/
theorem normalize_patch_idem_witness :
    headNotSpace (normalize_patch ("a\nb".data)) = true ∧
    normalize_patch (normalize_patch ("a\nb".data)) =
      normalize_patch ("a\nb".data) :=
  ⟨by decide, normalize_patch_idem_of_headNotSpace ("a\nb".data) (by decide)⟩
